import Mathlib

/-!
Shallow embedding of `check-block-history.py` (easy2stake/chain-tools).

The script probes an EVM JSON-RPC endpoint and binary-searches for the
oldest block at which each capability (block history, tx index, archival
state, log index, block receipts) still works.  Network behaviour is
modelled as an explicit environment function mapping each issued request
to an HTTP-level outcome; every Python function that touches the network
becomes a Lean function parameterised by such an environment (or by an
oracle for the derived per-block predicate).  Python integers are `Int`,
Python `range` loops become explicit lists, and the `while low < high`
binary-search loops become a fuel-indexed structural recursion whose fuel
`(high - low).toNat` is provably sufficient.
-/

namespace ChainTools

/-- Module-level configuration of the script: `RPC_URL`, `TIMEOUT` (from the
`-t` flag, default 10) and `VERBOSE` (lines 75-80 of the source). -/
structure Config where
  rpc_url : String
  timeout : Nat
  verbose : Bool
deriving DecidableEq

/-- An HTTP POST request as issued by `requests.post(RPC_URL, json=payload,
timeout=TIMEOUT)` (line 88): target URL, JSON-RPC method and params of the
payload (params modelled as their JSON texts), and the transport timeout
passed to the HTTP library. -/
structure RpcRequest where
  url : String
  method : String
  params : List String
  timeout : Nat
deriving DecidableEq

/-- Outcome of one HTTP round trip, as observable by the `try` block of
`rpc` (lines 85-100): the request may time out, fail to connect, come back
with an HTTP error status (so that `raise_for_status` raises), have a body
that is not valid JSON (so that `r.json()` raises), or succeed with a
parsed JSON body `α`. -/
inductive HttpOutcome (α : Type) where
  | timeout
  | connectionFailure
  | httpErrorStatus (code : Nat)
  | malformedBody
  | ok (body : α)
deriving DecidableEq

/-- A parsed JSON-RPC response body: `data.get("result")` and
`data.get("error")` (the error modelled by its message text).  A
well-formed remote error response has `result = none` and
`error = some msg`. -/
structure RpcBody (α : Type) where
  result : Option α
  error : Option String
deriving DecidableEq

/-- True on every constructor of `HttpOutcome` except `ok`: exactly the
outcomes that make the `try` block of `rpc` raise (timeout, connection
failure, HTTP error status, malformed body). -/
def HttpOutcome.isTransportFailure {α : Type} : HttpOutcome α → Bool
  | .ok _ => false
  | _ => true

/-- The request that `rpc(method, *params)` issues (lines 84 and 88): the
payload carries the given method and params, and the transport timeout is
the module-level `TIMEOUT` from the configuration. -/
def rpcIssuedRequest (cfg : Config) (method : String) (params : List String) : RpcRequest :=
  ⟨cfg.rpc_url, method, params, cfg.timeout⟩

/-- Embedding of `rpc` (lines 83-100): issue the request, and on any
exception return `None`; on success return `data.get("result")`.  The
environment `net` says what the network does with the issued request.
Totality of this Lean function is the counterpart of the Python function
never letting an exception escape. -/
def rpc {α : Type} (cfg : Config) (net : RpcRequest → HttpOutcome (RpcBody α))
    (method : String) (params : List String) : Option α :=
  match net (rpcIssuedRequest cfg method params) with
  | .ok body => body.result
  | .timeout => none
  | .connectionFailure => none
  | .httpErrorStatus _ => none
  | .malformedBody => none

/-- Python `hex` on an `int`: lowercase hex digits with an `0x` prefix and
a leading minus sign for negative numbers. -/
def pyHex (n : Int) : String :=
  if n < 0 then "-0x" ++ (Nat.toDigits 16 n.natAbs).asString
  else "0x" ++ (Nat.toDigits 16 n.toNat).asString

/-- Embedding of `block_exists` (lines 103-105): call
`rpc("eth_getBlockByNumber", hex(block_num), False)` and report whether the
result is non-`None`. -/
def block_exists {α : Type} (cfg : Config) (net : RpcRequest → HttpOutcome (RpcBody α))
    (block_num : Int) : Bool :=
  (rpc cfg net "eth_getBlockByNumber" [pyHex block_num, "false"]).isSome

/-- One iteration of every `while low < high` binary-search loop in `main`
(for example lines 274-280): probe the midpoint; if it works the failing
edge moves down to `mid`, otherwise the working edge moves up to
`mid + 1`.  Integer division by 2 on nonnegative sums agrees with Python
floor division. -/
def bsearchStep (works : Int → Bool) (low high : Int) : Int × Int :=
  let mid := (low + high) / 2
  if works mid then (low, mid) else (mid + 1, high)

/-- The `while low < high` loop run for at most `fuel` iterations,
returning the final `(low, high)` pair together with the number of probe
calls made (the loop body of lines 274-280 makes exactly one probe per
iteration). -/
def bsearchLoop (works : Int → Bool) : Nat → Int → Int → (Int × Int) × Nat
  | 0, low, high => ((low, high), 0)
  | fuel + 1, low, high =>
    if low < high then
      let s := bsearchStep works low high
      let r := bsearchLoop works fuel s.1 s.2
      (r.1, r.2 + 1)
    else ((low, high), 0)

/-- The complete binary search of `main` started on `[low, high]`: run the
loop to completion (fuel `(high - low).toNat` is enough, proved below) and
return the final `low` together with the probe count. -/
def bsearch (works : Int → Bool) (low high : Int) : Int × Nat :=
  let r := bsearchLoop works (high - low).toNat low high
  (r.1.1, r.2)

/-- Embedding of `block_receipts_work_at_block` (lines 190-193): call
`rpc("eth_getBlockReceipts", hex(block_num))` and report whether the result
is non-`None`. -/
def block_receipts_work_at_block {α : Type} (cfg : Config)
    (net : RpcRequest → HttpOutcome (RpcBody α)) (block_num : Int) : Bool :=
  (rpc cfg net "eth_getBlockReceipts" [pyHex block_num]).isSome

/-- Whether the code list `needle` is a leading segment of the first list
(helper for Python substring membership `needle in haystack`, with strings
modelled by their character-code lists). -/
def codesLeadWith : List Nat → List Nat → Bool
  | _, [] => true
  | [], _ :: _ => false
  | c :: cs, d :: ds => c == d && codesLeadWith cs ds

/-- Whether `needle` occurs as a contiguous segment of the second list. -/
def codesHaveSub (needle : List Nat) : List Nat → Bool
  | [] => needle.isEmpty
  | c :: t => codesLeadWith (c :: t) needle || codesHaveSub needle t

/-- The character codes of a string. -/
def strCodes (s : String) : List Nat := s.data.map Char.toNat

/-- ASCII lowercasing of one character code (the effect of Python
`str.lower()` on the ASCII error messages the source matches against). -/
def lowerCode (n : Nat) : Nat := if 65 ≤ n ∧ n ≤ 90 then n + 32 else n

/-- Python substring test `needle in hay`. -/
def strContainsSub (hay needle : String) : Bool :=
  codesHaveSub (strCodes needle) (strCodes hay)

/-- The retry condition of `_eth_get_logs_by_block_hash` (line 169): the
error message signals a rejected filter-parameter shape when it contains
`cannot unmarshal array`, or `invalid argument` after lowercasing. -/
def isMismatchMsg (msg : String) : Bool :=
  strContainsSub msg "cannot unmarshal array" ||
  codesHaveSub (strCodes "invalid argument") ((strCodes msg).map lowerCode)

/-- The two request shapes tried by `_eth_get_logs_by_block_hash`
(line 150): params as the array `[filter_obj]` first, then params as the
bare `filter_obj`. -/
inductive ParamShape where
  | arrayStyle
  | objectStyle
deriving DecidableEq

/-- Outcome of one `eth_getLogs` attempt as observable by the loop body of
`_eth_get_logs_by_block_hash`: either the request raised (timeout,
connection failure, HTTP error status, malformed body — all collapse to
`str(e)`), or a parsed body with `data.get("error")` (modelled by its
message) and `data.get("result")` (the log list modelled as an opaque
numeric handle). -/
inductive LogsAttemptOutcome where
  | exn (msg : String)
  | resp (error : Option String) (result : Option Nat)
deriving DecidableEq

/-- Embedding of `_eth_get_logs_by_block_hash` (lines 145-177): try the
array-style params; on a well-formed response with no error return its
result; on an error response retry with object-style params only when
`isMismatchMsg` holds, otherwise return the error; on an exception in the
array-style attempt the `params is filter_obj` guard does not fire, so the
loop also proceeds to the object-style attempt.  The returned list records
which request shapes were attempted, in order. -/
def eth_get_logs_by_block_hash (env : ParamShape → LogsAttemptOutcome) :
    (Option Nat × Option String) × List ParamShape :=
  match env .arrayStyle with
  | .resp none result => ((result, none), [.arrayStyle])
  | .resp (some err) _ =>
    if isMismatchMsg err then
      match env .objectStyle with
      | .resp none result2 => ((result2, none), [.arrayStyle, .objectStyle])
      | .resp (some err2) _ => ((none, some err2), [.arrayStyle, .objectStyle])
      | .exn msg2 => ((none, some msg2), [.arrayStyle, .objectStyle])
    else ((none, some err), [.arrayStyle])
  | .exn _ =>
    match env .objectStyle with
    | .resp none result2 => ((result2, none), [.arrayStyle, .objectStyle])
    | .resp (some err2) _ => ((none, some err2), [.arrayStyle, .objectStyle])
    | .exn msg2 => ((none, some msg2), [.arrayStyle, .objectStyle])

/-- Python `range(start, stop, -1)`: the integers `start, start-1, ...,
stop+1`. -/
def pyRangeDown (start stop : Int) : List Int :=
  (List.range (start - stop).toNat).map (fun (k : Nat) => start - (k : Int))

/-- Python `range(start, stop)`: the integers `start, ..., stop-1`. -/
def pyRangeUp (start stop : Int) : List Int :=
  (List.range (stop - start).toNat).map (fun (k : Nat) => start + (k : Int))

/-- First block in the list whose probe `f` (standing for
`get_block_tx_hash`, lines 108-116) yields a transaction hash, paired with
that hash. -/
def firstHit (f : Int → Option String) : List Int → Option (Int × String)
  | [] => none
  | i :: rest =>
    match f i with
    | some h => some (i, h)
    | none => firstHit f rest

/-- The backward loop of `get_tx_from_block_or_nearby` (lines 199-204):
walk the list, breaking as soon as `i < 1`, otherwise returning the first
block with a transaction hash. -/
def backScan (f : Int → Option String) : List Int → Option (Int × String)
  | [] => none
  | i :: rest =>
    if i < 1 then none
    else
      match f i with
      | some h => some (i, h)
      | none => backScan f rest

/-- The forward loop of `get_tx_from_block_or_nearby` (lines 205-210):
walk the list, breaking as soon as `i > current_dec`, otherwise returning
the first block with a transaction hash. -/
def fwdScan (f : Int → Option String) (current_dec : Int) : List Int → Option (Int × String)
  | [] => none
  | i :: rest =>
    if i > current_dec then none
    else
      match f i with
      | some h => some (i, h)
      | none => fwdScan f current_dec rest

/-- Embedding of `get_tx_from_block_or_nearby` (lines 196-211): scan
`range(block, max(0, block - radius) - 1, -1)` backward with the `i < 1`
break, then `range(block + 1, min(block + radius + 1, current_dec + 1))`
forward with the `i > current_dec` break, returning the first block whose
`get_block_tx_hash` probe `f` finds a transaction. -/
def get_tx_from_block_or_nearby (f : Int → Option String) (block radius current_dec : Int) :
    Option (Int × String) :=
  match backScan f (pyRangeDown block (max 0 (block - radius) - 1)) with
  | some r => some r
  | none => fwdScan f current_dec (pyRangeUp (block + 1) (min (block + radius + 1) (current_dec + 1)))

/-- The reclassification applied to every computed boundary (lines
332-333, 363-364, 398-399, 418-419): if the boundary is 1, or the earliest
retained block is 1 and the boundary is at most 1000, report block 1. -/
def classify_boundary (earliest_block boundary : Int) : Int :=
  if boundary = 1 ∨ (earliest_block = 1 ∧ boundary ≤ 1000) then 1 else boundary

/-- Embedding of the step-4 pipeline shared by the log-index (lines
384-402) and block-receipts (lines 404-422) capabilities: probe the chain
head once; if that fails report `none` (the "unsupported or pruned" skip)
after that single probe; otherwise binary search `[earliest_block,
current_dec]` and reclassify.  The second component counts probe calls
(`lr_iterations`). -/
def step4_capability (works : Int → Bool) (earliest_block current_dec : Int) :
    Option Int × Nat :=
  if works current_dec = false then (none, 1)
  else
    let r := bsearch works earliest_block current_dec
    (some (classify_boundary earliest_block r.1), 1 + r.2)

/-- The spot-check block list of step 2 (lines 239-244): fixed samples,
two conditional deep samples, and `current_dec // 2`. -/
def check_blocks_list (current_dec : Int) : List Int :=
  let base : List Int := [1, 100, 1000, 10000, 100000]
  let l1 := if current_dec > 1000000 then base ++ [1000000] else base
  let l2 := if current_dec > 5000000 then l1 ++ [5000000] else l1
  l2 ++ [current_dec / 2]

/-- The spot-check loop of step 2 (lines 245-256): skip out-of-range
samples, count one probe per checked sample, and on the first missing
block stop with `all_ok = False` and `low` moved to that block (`low`
stays 1 when every checked sample exists).  Returns
`(all_ok, low, probes)`. -/
def spotCheck (works : Int → Bool) (current_dec : Int) : List Int → Bool × Int × Nat
  | [] => (true, 1, 0)
  | b :: rest =>
    if b > current_dec ∨ b < 1 then spotCheck works current_dec rest
    else if works b then
      let r := spotCheck works current_dec rest
      (r.1, r.2.1, r.2.2 + 1)
    else (false, b, 1)

/-- Embedding of step 2 of `main` (lines 229-284): if block 1 exists,
spot-check the sample list and only on a failure binary search from the
failed sample; if block 1 is missing, binary search `[1, current_dec]`.
Returns `(earliest_block, iterations)` where `iterations` counts
`block_exists` probes. -/
def step2 (works : Int → Bool) (current_dec : Int) : Int × Nat :=
  if works 1 then
    let sc := spotCheck works current_dec (check_blocks_list current_dec)
    if sc.1 then (1, 1 + sc.2.2)
    else
      let r := bsearch works sc.2.1 current_dec
      (r.1, 1 + sc.2.2 + r.2)
  else
    let r := bsearch works 1 current_dec
    (r.1, 1 + r.2)

/-- A transaction object as used by step 3: only its `from` field matters
(`tx_obj.get("from")`, which may be absent). -/
structure TxObj where
  fromAddr : Option String
deriving DecidableEq

/-- Embedding of `archival_balance_works` (lines 137-142): false for an
empty address, otherwise whether the `eth_getBalance` call (oracle
`balRpc`) returned a non-`None` result. -/
def archival_balance_works (balRpc : String → Int → Option String)
    (address : String) (block_num : Int) : Bool :=
  if address = "" then false else (balRpc address block_num).isSome

/-- The tx-indexer probe of the step-3 binary search (lines 319-330): find
a transaction near `mid` (radius 20), then check `eth_getTransactionByHash`
(oracle `gtbh`); every failure path moves the working edge. -/
def tx_works (gbth : Int → Option String) (gtbh : String → Option TxObj)
    (current_dec mid : Int) : Bool :=
  match get_tx_from_block_or_nearby gbth mid 20 current_dec with
  | some (_, h) => (gtbh h).isSome
  | none => false

/-- The archival probe of the step-3 binary search (lines 345-361): find a
transaction near `mid` (radius 20), read its `from` address (Python
truthiness: a missing or empty address moves the working edge), and check
`eth_getBalance` at the block where the transaction was found. -/
def archival_works (gbth : Int → Option String) (gtbh : String → Option TxObj)
    (balRpc : String → Int → Option String) (current_dec mid : Int) : Bool :=
  match get_tx_from_block_or_nearby gbth mid 20 current_dec with
  | some (blk, h) =>
    match gtbh h with
    | some txo =>
      match txo.fromAddr with
      | some a => if a = "" then false else archival_balance_works balRpc a blk
      | none => false
    | none => false
  | none => false

/-- Result of step 3 (lines 287-374): the reported tx-indexer and archival
boundaries (`none` models the "N/A" outcome), the verdict of the single
archival probe at the recent block (line 310, `none` when that probe was
not made), and the probe counts of the two binary searches. -/
structure Step3Result where
  tx_indexer_earliest : Option Int
  archival_earliest : Option Int
  archival_head_ok : Option Bool
  tx_search_probes : Nat
  archival_search_probes : Nat
deriving DecidableEq

/-- Embedding of step 3 of `main` (lines 295-371): find a recent block
with a transaction (radius 500 from the head), look the transaction up; on
success probe archival state once at that block for display, then run the
tx-indexer binary search and, unconditionally, the archival binary search,
reclassifying both boundaries.  The archival search runs regardless of the
outcome of the archival probe at the recent block. -/
def step3 (gbth : Int → Option String) (gtbh : String → Option TxObj)
    (balRpc : String → Int → Option String) (earliest_block current_dec : Int) : Step3Result :=
  match get_tx_from_block_or_nearby gbth current_dec 500 current_dec with
  | none => ⟨none, none, none, 0, 0⟩
  | some (recent_block, recent_tx) =>
    match gtbh recent_tx with
    | none => ⟨none, none, none, 0, 0⟩
    | some recent_tx_obj =>
      let ar : Option Bool :=
        match recent_tx_obj.fromAddr with
        | some a => if a = "" then none else some (archival_balance_works balRpc a recent_block)
        | none => none
      let rtx := bsearch (tx_works gbth gtbh current_dec) earliest_block current_dec
      let rar := bsearch (archival_works gbth gtbh balRpc current_dec) earliest_block current_dec
      ⟨some (classify_boundary earliest_block rtx.1),
       some (classify_boundary earliest_block rar.1), ar, rtx.2, rar.2⟩

/-- Fixed configuration used by the concrete scenarios below. -/
def cfg0 : Config := ⟨"http://localhost:8545", 10, false⟩

/-- The params list of the `eth_getBlockByNumber` probe for block `n`. -/
def exParams (n : Int) : List String := [pyHex n, "false"]

/-- A ten-block test network: blocks 3 through 10 exist (except that the
outcome for the probe of block 5 is the parameter `at5`), blocks below 3
yield a well-formed `null` result. -/
def exNet (at5 : HttpOutcome (RpcBody Unit)) : RpcRequest → HttpOutcome (RpcBody Unit) :=
  fun req =>
    if req.params = exParams 5 then at5
    else if [exParams 3, exParams 4, exParams 6, exParams 7, exParams 8,
             exParams 9, exParams 10].contains req.params then .ok ⟨some (), none⟩
    else .ok ⟨none, none⟩

/-- A network that always returns a well-formed remote error response
(method not supported). -/
def netMethodMissing : RpcRequest → HttpOutcome (RpcBody Unit) :=
  fun _ => .ok ⟨none, some "the method eth_getBlockReceipts does not exist"⟩

/-- A network on which every request times out. -/
def netTimeout : RpcRequest → HttpOutcome (RpcBody Unit) :=
  fun _ => .timeout

/-- A `get_block_tx_hash` oracle: blocks 1 through 1024 each contain a
transaction. -/
def gbthEx : Int → Option String := fun n => if 1 ≤ n ∧ n ≤ 1024 then some "0xtx" else none

/-- A `get_tx_by_hash` oracle: every lookup succeeds with sender `0xabc`. -/
def gtbhEx : String → Option TxObj := fun _ => some ⟨some "0xabc"⟩

/-- An `eth_getBalance` oracle on which every historical balance query
fails (no archival state at all). -/
def balRpcNone : String → Int → Option String := fun _ _ => none

/-- A logs environment: the array-style attempt raises a read timeout, the
object-style attempt succeeds. -/
def logsEnvTimeoutThenOk : ParamShape → LogsAttemptOutcome := fun s =>
  match s with
  | .arrayStyle => .exn "Read timed out."
  | .objectStyle => .resp none (some 7)

/-- A logs environment: the array-style attempt is rejected with an
unmarshalling error (protocol mismatch), the object-style attempt
succeeds. -/
def logsEnvMismatchThenOk : ParamShape → LogsAttemptOutcome := fun s =>
  match s with
  | .arrayStyle => .resp (some "json: cannot unmarshal array into field") none
  | .objectStyle => .resp none (some 3)

/-- A `get_block_tx_hash` oracle with a transaction only in block 1. -/
def txAtBlock1 : Int → Option String := fun i => if i = 1 then some "0xdead" else none

/-- A synthetic availability predicate: blocks from 5 on are available. -/
def works5 : Int → Bool := fun n => decide (5 ≤ n)

/-- A synthetic availability predicate: every block is available. -/
def worksTrue : Int → Bool := fun _ => true

lemma bsearchStep_bounds (works : Int → Bool) (low high : Int) (h : low < high) :
    low ≤ (bsearchStep works low high).1 ∧
    (bsearchStep works low high).1 ≤ (bsearchStep works low high).2 ∧
    (bsearchStep works low high).2 ≤ high ∧
    (bsearchStep works low high).2 - (bsearchStep works low high).1 < high - low := by
  unfold bsearchStep
  by_cases hw : works ((low + high) / 2)
  · simp only [hw, if_true]
    omega
  · simp only [hw, if_false, Bool.false_eq_true]
    omega

lemma clog_half_succ (G : Nat) (hG : 1 ≤ G) :
    Nat.clog 2 (G / 2 + 1) + 1 ≤ Nat.clog 2 (G + 1) := by
  have h2 : 2 ≤ G + 1 := by omega
  have hrec := Nat.clog_of_two_le (b := 2) (by omega) h2
  have heq : (G + 1 + 2 - 1) / 2 = G / 2 + 1 := by omega
  rw [hrec, heq]

lemma clog_otherhalf_succ (G : Nat) (hG : 1 ≤ G) :
    Nat.clog 2 (G - G / 2) + 1 ≤ Nat.clog 2 (G + 1) := by
  have h1 : G - G / 2 ≤ G / 2 + 1 := by omega
  have h2 := Nat.clog_mono_right 2 h1
  have h3 := clog_half_succ G hG
  omega

lemma bsearchLoop_stop (works : Int → Bool) (fuel : Nat) (low high : Int) (h : ¬ low < high) :
    bsearchLoop works (fuel + 1) low high = ((low, high), 0) := by
  simp [bsearchLoop, h]

lemma bsearchLoop_go (works : Int → Bool) (fuel : Nat) (low high : Int) (h : low < high) :
    bsearchLoop works (fuel + 1) low high =
      ((bsearchLoop works fuel (bsearchStep works low high).1 (bsearchStep works low high).2).1,
       (bsearchLoop works fuel (bsearchStep works low high).1 (bsearchStep works low high).2).2 + 1) := by
  simp [bsearchLoop, h]

lemma bsearchLoop_spec (works : Int → Bool) :
    ∀ (fuel : Nat) (low high : Int), low ≤ high → (high - low).toNat ≤ fuel →
      (bsearchLoop works fuel low high).1.1 = (bsearchLoop works fuel low high).1.2 ∧
      low ≤ (bsearchLoop works fuel low high).1.1 ∧
      (bsearchLoop works fuel low high).1.1 ≤ high ∧
      (works high = true → works (bsearchLoop works fuel low high).1.1 = true) ∧
      ((∀ m n : Int, low ≤ m → m ≤ n → n ≤ high → works m = true → works n = true) →
        ∀ m : Int, low ≤ m → m < (bsearchLoop works fuel low high).1.1 → works m = false) ∧
      (bsearchLoop works fuel low high).2 ≤ Nat.clog 2 (high - low + 1).toNat := by
  intro fuel
  induction fuel with
  | zero =>
    intro low high h1 h2
    have heq : low = high := by omega
    subst heq
    exact ⟨rfl, le_refl _, le_refl _, fun h => h,
      fun _ m hm1 hm2 => absurd hm2 (by exact not_lt.mpr hm1), Nat.zero_le _⟩
  | succ fuel ih =>
    intro low high h1 h2
    by_cases hlh : low < high
    · have hstep := bsearchStep_bounds works low high hlh
      set s := bsearchStep works low high with hs
      have hdec : (s.2 - s.1).toNat ≤ fuel := by omega
      have hrec := ih s.1 s.2 (by omega) hdec
      have hA : (bsearchLoop works (fuel + 1) low high).1 = (bsearchLoop works fuel s.1 s.2).1 := by
        rw [bsearchLoop_go works fuel low high hlh]
      have hB : (bsearchLoop works (fuel + 1) low high).2 =
          (bsearchLoop works fuel s.1 s.2).2 + 1 := by
        rw [bsearchLoop_go works fuel low high hlh]
      rw [hA, hB]
      obtain ⟨hr1, hr2, hr3, hr4, hr5, hr6⟩ := hrec
      have hworkshigh : works high = true → works s.2 = true := by
        intro hh
        by_cases hw : works ((low + high) / 2)
        · have : s = (low, (low + high) / 2) := by
            rw [hs]; unfold bsearchStep; simp only [hw, if_true]
          rw [this]
          exact hw
        · have : s = ((low + high) / 2 + 1, high) := by
            rw [hs]; unfold bsearchStep
            simp only [hw, if_false, Bool.false_eq_true]
          rw [this]
          exact hh
      refine ⟨hr1, by omega, by omega, fun hh => hr4 (hworkshigh hh), ?_, ?_⟩
      · -- minimality
        intro hmono m hm1 hm2
        by_cases hmlow : s.1 ≤ m
        · exact hr5 (fun a b ha hab hb => hmono a b (by omega) hab (by omega)) m hmlow hm2
        · -- m below the new working edge: only possible in the failing branch
          by_cases hw : works ((low + high) / 2)
          · exfalso
            have : s = (low, (low + high) / 2) := by
              rw [hs]; unfold bsearchStep; simp only [hw, if_true]
            rw [this] at hmlow
            simp at hmlow
            omega
          · have hseq : s = ((low + high) / 2 + 1, high) := by
              rw [hs]; unfold bsearchStep
              simp only [hw, if_false, Bool.false_eq_true]
            rw [hseq] at hmlow
            simp at hmlow
            by_contra hTrue
            have hmT : works m = true := by
              cases hwm : works m with
              | false => exact absurd hwm hTrue
              | true => rfl
            have := hmono m ((low + high) / 2) hm1 (by omega) (by omega) hmT
            exact absurd this (by simp [hw])
      · -- probe count
        have hG : 1 ≤ (high - low).toNat := by omega
        set G := (high - low).toNat with hGdef
        have hsz : (s.2 - s.1 + 1).toNat = G / 2 + 1 ∨ (s.2 - s.1 + 1).toNat = G - G / 2 := by
          by_cases hw : works ((low + high) / 2)
          · left
            have : s = (low, (low + high) / 2) := by
              rw [hs]; unfold bsearchStep; simp only [hw, if_true]
            rw [this]
            omega
          · right
            have : s = ((low + high) / 2 + 1, high) := by
              rw [hs]; unfold bsearchStep
              simp only [hw, if_false, Bool.false_eq_true]
            rw [this]
            omega
        have hfin : (high - low + 1).toNat = G + 1 := by omega
        rw [hfin]
        rcases hsz with hsz | hsz
        · rw [hsz] at hr6
          have := clog_half_succ G hG
          omega
        · rw [hsz] at hr6
          have h1' := Nat.clog_mono_right 2 (show G - G / 2 ≤ G / 2 + 1 by omega)
          have := clog_half_succ G hG
          omega
    · have heq : low = high := by omega
      subst heq
      rw [bsearchLoop_stop works fuel low low hlh]
      exact ⟨rfl, le_refl _, le_refl _, fun h => h,
        fun _ m hm1 hm2 => absurd hm2 (by exact not_lt.mpr hm1), Nat.zero_le _⟩

lemma bsearch_spec (works : Int → Bool) (low high : Int) (h1 : low ≤ high) :
    low ≤ (bsearch works low high).1 ∧ (bsearch works low high).1 ≤ high ∧
    (works high = true → works (bsearch works low high).1 = true) ∧
    ((∀ m n : Int, low ≤ m → m ≤ n → n ≤ high → works m = true → works n = true) →
      ∀ m : Int, low ≤ m → m < (bsearch works low high).1 → works m = false) ∧
    (bsearch works low high).2 ≤ Nat.clog 2 (high - low + 1).toNat := by
  have hs := bsearchLoop_spec works (high - low).toNat low high h1 (le_refl _)
  exact ⟨hs.2.1, hs.2.2.1, hs.2.2.2.1, hs.2.2.2.2.1, hs.2.2.2.2.2⟩

/-- Claim C1: for every availability predicate `works` that is monotonic
non-decreasing over `[1, H]` (`H` the chain head), the binary-search loop
of `main` (probe the midpoint; if available set `high = mid`, otherwise
`low = mid + 1`; stop when `low == high`), started on a bracket
`[low, high]` with `works high` true (and the lower edge either 1 or known
failing, as every call site establishes), returns the exact least block
number at which `works` is true, using at most `ceil(log2 H)` probe
calls. -/
theorem bsearch_returns_least_available (works : Int → Bool) (low high H : Int)
    (hlow : 1 ≤ low) (hlh : low ≤ high) (hH : high ≤ H)
    (hmono : ∀ m n : Int, 1 ≤ m → m ≤ n → n ≤ H → works m = true → works n = true)
    (hhigh : works high = true)
    (hbracket : low = 1 ∨ works (low - 1) = false) :
    works (bsearch works low high).1 = true ∧
    (∀ m : Int, 1 ≤ m → m < (bsearch works low high).1 → works m = false) ∧
    low ≤ (bsearch works low high).1 ∧ (bsearch works low high).1 ≤ high ∧
    (bsearch works low high).2 ≤ Nat.clog 2 H.toNat := by
  obtain ⟨h1, h2, h3, h4, h5⟩ := bsearch_spec works low high hlh
  refine ⟨h3 hhigh, ?_, h1, h2, ?_⟩
  · intro m hm1 hm2
    by_cases hmlow : low ≤ m
    · exact h4 (fun a b ha hab hb => hmono a b (by omega) hab (by omega)) m hmlow hm2
    · rcases hbracket with hb | hb
      · exact absurd hm1 (by omega)
      · by_contra hT
        have hmT : works m = true := by
          cases hwm : works m with
          | false => exact absurd hwm hT
          | true => rfl
        have hcontra := hmono m (low - 1) hm1 (by omega) (by omega) hmT
        rw [hb] at hcontra
        exact absurd hcontra (by decide)
  · have hle : (high - low + 1).toNat ≤ H.toNat := by omega
    exact le_trans h5 (Nat.clog_mono_right 2 hle)

/-- Witness for C1: the predicate true from block 5 on, searched over
`[1, 8]` with chain head 8. -/
theorem bsearch_returns_least_available_witness :
    works5 (bsearch works5 1 8).1 = true ∧
    (∀ m : Int, 1 ≤ m → m < (bsearch works5 1 8).1 → works5 m = false) ∧
    (1 : Int) ≤ (bsearch works5 1 8).1 ∧ (bsearch works5 1 8).1 ≤ 8 ∧
    (bsearch works5 1 8).2 ≤ Nat.clog 2 (8 : Int).toNat :=
  bsearch_returns_least_available works5 1 8 8 (by decide) (by decide) (by decide)
    (fun m n _ h2 _ hm => by
      simp only [works5, decide_eq_true_eq] at hm ⊢
      omega)
    (by decide) (Or.inl rfl)

/-- Claim C10: every `while low < high` binary-search loop of `main`, entered
with integers `1 <= low <= high`, strictly decreases `high - low` on each
iteration regardless of probe outcomes, terminates with `low == high`, and
the final value — also after the boundary reclassification applied at the
report sites — lies within the initial interval, so every reported
boundary lies in `[earliest_block, current_dec]`. -/
theorem binary_search_terminates_in_range (works : Int → Bool) (low high : Int)
    (hlow : 1 ≤ low) (hlh : low ≤ high) :
    (∀ l h : Int, l < h →
      (bsearchStep works l h).2 - (bsearchStep works l h).1 < h - l ∧
      l ≤ (bsearchStep works l h).1 ∧
      (bsearchStep works l h).1 ≤ (bsearchStep works l h).2 ∧
      (bsearchStep works l h).2 ≤ h) ∧
    (bsearchLoop works (high - low).toNat low high).1.1 =
      (bsearchLoop works (high - low).toNat low high).1.2 ∧
    low ≤ (bsearch works low high).1 ∧ (bsearch works low high).1 ≤ high ∧
    low ≤ classify_boundary low (bsearch works low high).1 ∧
    classify_boundary low (bsearch works low high).1 ≤ high := by
  obtain ⟨h1, h2, h3, _, _, _⟩ := bsearchLoop_spec works (high - low).toNat low high hlh (le_refl _)
  have hb1 : low ≤ (bsearch works low high).1 := h2
  have hb2 : (bsearch works low high).1 ≤ high := h3
  have hcb : low ≤ classify_boundary low (bsearch works low high).1 ∧
      classify_boundary low (bsearch works low high).1 ≤ high := by
    unfold classify_boundary
    by_cases hc : (bsearch works low high).1 = 1 ∨ (low = 1 ∧ (bsearch works low high).1 ≤ 1000)
    · rw [if_pos hc]
      rcases hc with hc | hc
      · omega
      · omega
    · rw [if_neg hc]
      exact ⟨hb1, hb2⟩
  refine ⟨?_, h1, hb1, hb2, hcb.1, hcb.2⟩
  intro l h hlt
  have hsb := bsearchStep_bounds works l h hlt
  exact ⟨hsb.2.2.2, hsb.1, hsb.2.1, hsb.2.2.1⟩

/-- Witness for C10: the loop on `[2, 9]` with the predicate true from
block 5 on. -/
theorem binary_search_terminates_in_range_witness :
    (∀ l h : Int, l < h →
      (bsearchStep works5 l h).2 - (bsearchStep works5 l h).1 < h - l ∧
      l ≤ (bsearchStep works5 l h).1 ∧
      (bsearchStep works5 l h).1 ≤ (bsearchStep works5 l h).2 ∧
      (bsearchStep works5 l h).2 ≤ h) ∧
    (bsearchLoop works5 ((9 : Int) - 2).toNat 2 9).1.1 =
      (bsearchLoop works5 ((9 : Int) - 2).toNat 2 9).1.2 ∧
    (2 : Int) ≤ (bsearch works5 2 9).1 ∧ (bsearch works5 2 9).1 ≤ 9 ∧
    (2 : Int) ≤ classify_boundary 2 (bsearch works5 2 9).1 ∧
    classify_boundary 2 (bsearch works5 2 9).1 ≤ 9 :=
  binary_search_terminates_in_range works5 2 9 (by decide) (by decide)

/-- Claim C2 counterexample: on the ten-block test network, a timeout on the
probe of block 5 is folded by `block_exists` into the same `false` that a
genuinely missing block produces, and that `false` moves the working edge
of the binary search: the search reports boundary 6, while the identical
network with a successful response at block 5 yields the true boundary 3.
The transient outcome was therefore treated as `Unavailable` and used in
boundary derivation, silently and without retry. -/
theorem transport_failure_drives_search_cex :
    exNet .timeout (rpcIssuedRequest cfg0 "eth_getBlockByNumber" (exParams 5)) =
      HttpOutcome.timeout ∧
    block_exists cfg0 (exNet .timeout) 5 = false ∧
    bsearch (fun n => block_exists cfg0 (exNet .timeout) n) 1 10 = (6, 4) ∧
    bsearch (fun n => block_exists cfg0 (exNet (.ok ⟨some (), none⟩)) n) 1 10 = (3, 3) := by
  refine ⟨?_, ?_, ?_, ?_⟩ <;> decide

/-- Claim C2 amended: a probe outcome arising from a transient transport failure
(timeout, connection failure, HTTP error status, malformed response) is
surfaced by `rpc` as `None` and folded silently by `block_exists` into the
same `false` (`Unavailable`) that a missing block produces, so it does
participate in bracket and boundary derivation exactly like a genuine
`Unavailable`; there is no retry and no call-site choice. -/
theorem transport_failure_folds_to_unavailable {α : Type} (cfg : Config)
    (net : RpcRequest → HttpOutcome (RpcBody α)) (n : Int)
    (h : (net (rpcIssuedRequest cfg "eth_getBlockByNumber"
      [pyHex n, "false"])).isTransportFailure = true) :
    rpc cfg net "eth_getBlockByNumber" [pyHex n, "false"] = none ∧
    block_exists cfg net n = false := by
  have hr : rpc cfg net "eth_getBlockByNumber" [pyHex n, "false"] = none := by
    unfold rpc
    cases hnet : net (rpcIssuedRequest cfg "eth_getBlockByNumber" [pyHex n, "false"]) with
    | ok body =>
      rw [hnet] at h
      exact absurd h (by simp [HttpOutcome.isTransportFailure])
    | timeout => rfl
    | connectionFailure => rfl
    | httpErrorStatus c => rfl
    | malformedBody => rfl
  refine ⟨hr, ?_⟩
  unfold block_exists
  rw [hr]
  rfl

/-- Witness for the amended C2 at a concrete timed-out probe of block 7. -/
theorem transport_failure_folds_to_unavailable_witness :
    (netTimeout (rpcIssuedRequest cfg0 "eth_getBlockByNumber"
      [pyHex 7, "false"])).isTransportFailure = true ∧
    rpc cfg0 netTimeout "eth_getBlockByNumber" [pyHex 7, "false"] = (none : Option Unit) ∧
    block_exists cfg0 netTimeout 7 = false :=
  ⟨by decide, (transport_failure_folds_to_unavailable cfg0 netTimeout 7 (by decide)).1,
   (transport_failure_folds_to_unavailable cfg0 netTimeout 7 (by decide)).2⟩

/-- Claim C3: for every method name and parameter list, the probe call `rpc`
applies the caller-supplied timeout to the issued request, never raises
into caller code (it is a total function of the network outcome), and
surfaces every failure — timeout, connection failure, HTTP error status,
malformed response body — as the `None` result, returning the `result`
field of the body only on a successful round trip. -/
theorem rpc_applies_timeout_and_never_raises {α : Type} (cfg : Config)
    (net : RpcRequest → HttpOutcome (RpcBody α)) (method : String) (params : List String) :
    (rpcIssuedRequest cfg method params).timeout = cfg.timeout ∧
    (net (rpcIssuedRequest cfg method params) = .timeout →
      rpc cfg net method params = none) ∧
    (net (rpcIssuedRequest cfg method params) = .connectionFailure →
      rpc cfg net method params = none) ∧
    (∀ c : Nat, net (rpcIssuedRequest cfg method params) = .httpErrorStatus c →
      rpc cfg net method params = none) ∧
    (net (rpcIssuedRequest cfg method params) = .malformedBody →
      rpc cfg net method params = none) ∧
    (∀ body : RpcBody α, net (rpcIssuedRequest cfg method params) = .ok body →
      rpc cfg net method params = body.result) :=
  ⟨rfl, fun h => by unfold rpc; rw [h], fun h => by unfold rpc; rw [h],
   fun c h => by unfold rpc; rw [h], fun h => by unfold rpc; rw [h],
   fun body h => by unfold rpc; rw [h]⟩

/-- Witness for C3 on the always-timeout network with the default
configuration (timeout 10). -/
theorem rpc_applies_timeout_and_never_raises_witness :
    (rpcIssuedRequest cfg0 "eth_blockNumber" []).timeout = 10 ∧
    rpc cfg0 netTimeout "eth_blockNumber" [] = (none : Option Unit) := by
  have h := rpc_applies_timeout_and_never_raises cfg0 netTimeout "eth_blockNumber" ([] : List String)
  exact ⟨h.1, h.2.1 rfl⟩

/-- Claim C8 counterexample: a well-formed remote error response (method not
supported) and a plain timeout produce the identical `None` from `rpc`,
the identical `false` probe verdict, and the identical step-4 skip
outcome, so no flag distinguishes them anywhere downstream; the skip
message of the source (line 386) accordingly says "unsupported or pruned"
without deciding which. -/
theorem remote_error_indistinguishable_cex :
    rpc cfg0 netMethodMissing "eth_getBlockReceipts" [pyHex 100] = (none : Option Unit) ∧
    rpc cfg0 netTimeout "eth_getBlockReceipts" [pyHex 100] = (none : Option Unit) ∧
    block_receipts_work_at_block cfg0 netMethodMissing 100 = false ∧
    block_receipts_work_at_block cfg0 netTimeout 100 = false ∧
    step4_capability (fun n => block_receipts_work_at_block cfg0 netMethodMissing n) 1 100 =
      step4_capability (fun n => block_receipts_work_at_block cfg0 netTimeout n) 1 100 := by
  refine ⟨?_, ?_, ?_, ?_, ?_⟩ <;> decide

/-- Claim C8 amended: a well-formed remote error response is treated as
`Unavailable` for boundary purposes (`rpc` returns `None` for it), but it
is not flagged distinctly from a transport failure: `rpc` returns the very
same `None` for both, so the final report cannot say "unsupported" rather
than "pruned" for that capability. -/
theorem remote_error_unavailable_unflagged {α : Type} (cfg : Config)
    (net net2 : RpcRequest → HttpOutcome (RpcBody α)) (method : String) (params : List String)
    (msg : String)
    (h : net (rpcIssuedRequest cfg method params) = .ok ⟨none, some msg⟩)
    (h2 : net2 (rpcIssuedRequest cfg method params) = .timeout) :
    rpc cfg net method params = none ∧
    rpc cfg net method params = rpc cfg net2 method params := by
  have ha : rpc cfg net method params = none := by unfold rpc; rw [h]
  have hb : rpc cfg net2 method params = none := by unfold rpc; rw [h2]
  exact ⟨ha, ha.trans hb.symm⟩

/-- Witness for the amended C8 at a concrete method-not-supported response
versus a concrete timeout. -/
theorem remote_error_unavailable_unflagged_witness :
    rpc cfg0 netMethodMissing "eth_getBlockReceipts" [pyHex 100] = (none : Option Unit) ∧
    rpc cfg0 netMethodMissing "eth_getBlockReceipts" [pyHex 100] =
      rpc cfg0 netTimeout "eth_getBlockReceipts" [pyHex 100] :=
  remote_error_unavailable_unflagged cfg0 netMethodMissing netTimeout "eth_getBlockReceipts"
    [pyHex 100] "the method eth_getBlockReceipts does not exist" rfl rfl

lemma pyRangeDown_nil (a b : Int) (h : a ≤ b) : pyRangeDown a b = [] := by
  unfold pyRangeDown
  have h0 : (a - b).toNat = 0 := by omega
  rw [h0]
  rfl

lemma pyRangeDown_cons (a b : Int) (h : b < a) : pyRangeDown a b = a :: pyRangeDown (a - 1) b := by
  unfold pyRangeDown
  have h1 : (a - b).toNat = (a - 1 - b).toNat + 1 := by omega
  rw [h1, List.range_succ_eq_map]
  simp only [List.map_cons, List.map_map]
  congr 1
  · simp
  · refine List.map_congr_left (fun k _ => ?_)
    simp only [Function.comp_apply]
    push_cast
    ring

lemma backScan_eq_firstHit (f : Int → Option String) :
    ∀ (n : Nat) (a b : Int), (a - b).toNat ≤ n →
      backScan f (pyRangeDown a b) = firstHit f (pyRangeDown a (max 0 b)) := by
  intro n
  induction n with
  | zero =>
    intro a b h
    rw [pyRangeDown_nil a b (by omega), pyRangeDown_nil a (max 0 b) (by omega)]
    rfl
  | succ n ih =>
    intro a b h
    by_cases hab : a ≤ b
    · rw [pyRangeDown_nil a b hab, pyRangeDown_nil a (max 0 b) (by omega)]
      rfl
    · push_neg at hab
      rw [pyRangeDown_cons a b hab]
      by_cases ha1 : a < 1
      · rw [pyRangeDown_nil a (max 0 b) (by omega)]
        simp [backScan, ha1, firstHit]
      · have hmax : max 0 b < a := by omega
        rw [pyRangeDown_cons a (max 0 b) hmax]
        simp only [backScan, firstHit, if_neg ha1]
        cases hfa : f a with
        | some v => rfl
        | none => exact ih (a - 1) b (by omega)

lemma fwdScan_eq_firstHit (f : Int → Option String) (cur : Int) :
    ∀ l : List Int, (∀ i ∈ l, i ≤ cur) → fwdScan f cur l = firstHit f l := by
  intro l
  induction l with
  | nil => intro _; rfl
  | cons i t ih =>
    intro h
    have hi : i ≤ cur := h i (by simp)
    simp only [fwdScan, firstHit, if_neg (by omega : ¬ i > cur)]
    cases hfi : f i with
    | some v => rfl
    | none => exact ih (fun j hj => h j (by simp [hj]))

lemma mem_pyRangeUp (a b i : Int) (h : i ∈ pyRangeUp a b) : a ≤ i ∧ i < b := by
  unfold pyRangeUp at h
  simp only [List.mem_map, List.mem_range] at h
  obtain ⟨k, hk, rfl⟩ := h
  omega

lemma firstHit_append (f : Int → Option String) (l1 l2 : List Int) :
    firstHit f (l1 ++ l2) =
      match firstHit f l1 with
      | some r => some r
      | none => firstHit f l2 := by
  induction l1 with
  | nil => rfl
  | cons i t ih =>
    simp only [List.cons_append, firstHit]
    cases hfi : f i with
    | some v => rfl
    | none => exact ih

/-- Claim C4 counterexample: with a transaction in block 1, center 0 (so
`center < 1`), radius 2 and head 10, the finder does not return `None`
immediately: the backward scan stops at once, but the forward scan still
probes blocks 1 and 2 and returns block 1, contradicting the claimed edge
case. -/
theorem nearby_finder_negative_center_cex :
    get_tx_from_block_or_nearby txAtBlock1 0 2 10 = some (1, "0xdead") ∧
    get_tx_from_block_or_nearby txAtBlock1 0 2 10 ≠ none := by
  exact ⟨by decide, by decide⟩

/-- Claim C4 amended: `get_tx_from_block_or_nearby` returns the first qualifying
block of the backward scan `center, center-1, ..., max(1, center-radius)`
followed by the forward scan `center+1, ..., min(upperBound,
center+radius)` — so the backward candidate is preferred when two
qualifying blocks are equidistant, and `None` is returned when no
qualifying block lies within the radius in either direction; however, when
`center < 1` only the backward scan is empty (no backward probes are
issued), while the forward scan still runs over
`[center+1, min(upperBound, center+radius)]` and may return a block, so
the finder does not return `None` immediately in that case. -/
theorem nearby_finder_scan_order (f : Int → Option String) (block radius current_dec : Int) :
    get_tx_from_block_or_nearby f block radius current_dec =
      firstHit f ((if 1 ≤ block then pyRangeDown block (max 1 (block - radius) - 1) else []) ++
        pyRangeUp (block + 1) (min (block + radius + 1) (current_dec + 1))) := by
  have hlist : pyRangeDown block (max 0 (max 0 (block - radius) - 1)) =
      (if 1 ≤ block then pyRangeDown block (max 1 (block - radius) - 1) else []) := by
    by_cases hb : 1 ≤ block
    · rw [if_pos hb]
      have harith : max 0 (max 0 (block - radius) - 1) = max 1 (block - radius) - 1 := by omega
      rw [harith]
    · rw [if_neg hb]
      exact pyRangeDown_nil _ _ (by omega)
  unfold get_tx_from_block_or_nearby
  rw [backScan_eq_firstHit f (block - (max 0 (block - radius) - 1)).toNat block
    (max 0 (block - radius) - 1) (le_refl _)]
  rw [fwdScan_eq_firstHit f current_dec _ (fun i hi => by
    have hmem := mem_pyRangeUp _ _ _ hi
    omega)]
  rw [hlist, firstHit_append]

set_option maxRecDepth 8000 in
/-- Claim C5 counterexample: on a 1024-block chain where every block has a
transaction but archival state fails everywhere, the single archival probe
at the recent block fails (`archival_head_ok = some false`), yet step 3
still runs the archival binary search (10 probes, a count that grows with
the logarithm of the chain length) and reports the numeric boundary 1024
instead of an unsupported/unverifiable outcome — so the claim fails for
the archival-state capability. -/
theorem archival_head_failure_still_searches_cex :
    step3 gbthEx gtbhEx balRpcNone 1 1024 = ⟨some 1, some 1024, some false, 10, 10⟩ := by
  decide

/-- Claim C5 amended: for the log-index and block-receipts capabilities (the
step-4 pipeline), a probe failure at the chain head makes the engine
report the capability unsupported/unverifiable (`none`) after exactly one
probe, never entering the binary search; for the tx-index capability, a
failure of its head probe — no recent transaction found within radius 500
of the chain head, or the recent transaction-hash lookup failing — makes
step 3 skip both the tx-indexer and archival binary searches and report
both as N/A; the archival-state capability, however, runs its binary
search regardless of the outcome of its own archival probe at the recent
block (that probe only affects display, see the counterexample), and
block history has no head probe at all (its search runs regardless). -/
theorem head_failure_skip_coverage (works : Int → Bool)
    (gbth : Int → Option String) (gtbh : String → Option TxObj)
    (balRpc : String → Int → Option String) (earliest_block current_dec : Int) :
    (works current_dec = false →
      step4_capability works earliest_block current_dec = (none, 1)) ∧
    (get_tx_from_block_or_nearby gbth current_dec 500 current_dec = none →
      step3 gbth gtbh balRpc earliest_block current_dec = ⟨none, none, none, 0, 0⟩) ∧
    (∀ (rb : Int) (rtx : String),
      get_tx_from_block_or_nearby gbth current_dec 500 current_dec = some (rb, rtx) →
      gtbh rtx = none →
      step3 gbth gtbh balRpc earliest_block current_dec = ⟨none, none, none, 0, 0⟩) := by
  refine ⟨?_, ?_, ?_⟩
  · intro h
    simp [step4_capability, h]
  · intro h
    unfold step3
    rw [h]
  · intro rb rtx h1 h2
    simp [step3, h1, h2]

set_option maxRecDepth 8000 in
/-- Witness for the amended C5: an always-failing step-4 capability on
`[1, 100]`, a chain with no transactions at all (no recent transaction
found), and a chain whose recent transaction exists but whose hash lookup
fails. -/
theorem head_failure_skip_coverage_witness :
    step4_capability (fun _ => false) 1 100 = (none, 1) ∧
    step3 (fun _ => none) (fun _ => none) balRpcNone 1 100 = ⟨none, none, none, 0, 0⟩ ∧
    step3 gbthEx (fun _ => none) balRpcNone 1 1024 = ⟨none, none, none, 0, 0⟩ := by
  have h1 := head_failure_skip_coverage (fun _ => false) (fun _ => none) (fun _ => none)
    balRpcNone 1 100
  have h2 := head_failure_skip_coverage (fun _ => false) gbthEx (fun _ => none)
    balRpcNone 1 1024
  exact ⟨h1.1 rfl, h1.2.1 (by decide), h2.2.2 1024 "0xtx" (by decide) rfl⟩

/-- Claim C6: when the computed boundary is exactly 1, or the earliest retained
block is 1 and the computed boundary is at most 1000, the engine
reclassifies the boundary to 1 and reports "fully available from block 1",
spending no probes beyond the head probe and the search already
performed. -/
theorem boundary_reclassified_to_one (works : Int → Bool) (earliest_block current_dec : Int)
    (hhead : works current_dec = true)
    (hcond : (bsearch works earliest_block current_dec).1 = 1 ∨
      (earliest_block = 1 ∧ (bsearch works earliest_block current_dec).1 ≤ 1000)) :
    step4_capability works earliest_block current_dec =
      (some 1, 1 + (bsearch works earliest_block current_dec).2) := by
  have hcb : classify_boundary earliest_block (bsearch works earliest_block current_dec).1 = 1 := by
    unfold classify_boundary
    rw [if_pos hcond]
  simp [step4_capability, hhead, hcb]

/-- Witness for C6: the predicate true from block 5 on, searched over
`[1, 8]`; the boundary 5 is within the first 1000 blocks of earliest
retained block 1, so the report says block 1. -/
theorem boundary_reclassified_to_one_witness :
    step4_capability works5 1 8 = (some 1, 1 + (bsearch works5 1 8).2) :=
  boundary_reclassified_to_one works5 1 8 (by decide) (by decide)

lemma spotCheck_all_ok (works : Int → Bool) (current_dec : Int)
    (hall : ∀ n : Int, 1 ≤ n → n ≤ current_dec → works n = true) :
    ∀ l : List Int, (spotCheck works current_dec l).1 = true ∧
      (spotCheck works current_dec l).2.1 = 1 ∧
      (spotCheck works current_dec l).2.2 ≤ l.length := by
  intro l
  induction l with
  | nil => exact ⟨rfl, rfl, Nat.zero_le _⟩
  | cons b t ih =>
    by_cases hb : b > current_dec ∨ b < 1
    · simp only [spotCheck, if_pos hb]
      exact ⟨ih.1, ih.2.1, le_trans ih.2.2 (by simp)⟩
    · have hw : works b = true := by
        push_neg at hb
        exact hall b (by omega) (by omega)
      simp only [spotCheck, if_neg hb, hw, if_true]
      refine ⟨ih.1, ih.2.1, ?_⟩
      have := ih.2.2
      simp only [List.length_cons]
      omega

lemma check_blocks_list_length (current_dec : Int) :
    (check_blocks_list current_dec).length ≤ 8 := by
  unfold check_blocks_list
  by_cases h1 : current_dec > 1000000 <;> by_cases h2 : current_dec > 5000000 <;>
    simp [h1, h2]

/-- Claim C7: if every block in `[1, chainHead]` is available (block 1 exists
and every spot-check sample passes), step 2 reports full block history
from block 1 without entering the binary search, and its probe count is
bounded by the fixed sample-set size (at most 9 probes), not by
`log2(chainHead)`. -/
theorem full_history_spot_check_bounded (works : Int → Bool) (current_dec : Int)
    (hcur : 1 ≤ current_dec)
    (hall : ∀ n : Int, 1 ≤ n → n ≤ current_dec → works n = true) :
    (step2 works current_dec).1 = 1 ∧ (step2 works current_dec).2 ≤ 9 := by
  have h1 : works 1 = true := hall 1 (le_refl _) hcur
  have hsc := spotCheck_all_ok works current_dec hall (check_blocks_list current_dec)
  have hlen := check_blocks_list_length current_dec
  have hstep : step2 works current_dec =
      (1, 1 + (spotCheck works current_dec (check_blocks_list current_dec)).2.2) := by
    simp [step2, h1, hsc.1]
  rw [hstep]
  refine ⟨rfl, ?_⟩
  show 1 + (spotCheck works current_dec (check_blocks_list current_dec)).2.2 ≤ 9
  have h2 := hsc.2.2
  omega

/-- Witness for C7 on a five-block fully available chain. -/
theorem full_history_spot_check_bounded_witness :
    (step2 worksTrue 5).1 = 1 ∧ (step2 worksTrue 5).2 ≤ 9 :=
  full_history_spot_check_bounded worksTrue 5 (by decide) (fun _ _ _ => rfl)

/-- Claim C9 counterexample: the array-style `eth_getLogs` attempt fails with a
read timeout — a transport failure, not a protocol mismatch
(`isMismatchMsg` is false on its message) — yet the loop still retries
with the object-style shape: both shapes are attempted.  A
non-protocol-mismatch error is therefore not always returned without a
retry. -/
theorem logs_retry_on_transport_error_cex :
    isMismatchMsg "Read timed out." = false ∧
    eth_get_logs_by_block_hash logsEnvTimeoutThenOk =
      ((some 7, none), [.arrayStyle, .objectStyle]) := by
  exact ⟨by decide, by decide⟩

/-- Claim C9 amended: for the logs capability, a rejected filter-parameter shape
(protocol mismatch) on the array-style attempt triggers exactly one
bounded retry with the object-style shape; a non-mismatch well-formed
error response on the array-style attempt is returned without a retry and
the outcome falls back to `Unavailable` (result `none`); however a
transport exception on the array-style attempt also proceeds to the
object-style retry.  At most two attempts are ever made. -/
theorem logs_retry_policy (env : ParamShape → LogsAttemptOutcome) (err : String)
    (res : Option Nat) :
    (env .arrayStyle = .resp (some err) res → isMismatchMsg err = true →
      (eth_get_logs_by_block_hash env).2 = [.arrayStyle, .objectStyle]) ∧
    (env .arrayStyle = .resp (some err) res → isMismatchMsg err = false →
      eth_get_logs_by_block_hash env = ((none, some err), [.arrayStyle])) ∧
    (∀ m : String, env .arrayStyle = .exn m →
      (eth_get_logs_by_block_hash env).2 = [.arrayStyle, .objectStyle]) ∧
    (eth_get_logs_by_block_hash env).2.length ≤ 2 := by
  refine ⟨?_, ?_, ?_, ?_⟩
  · intro h hm
    unfold eth_get_logs_by_block_hash
    rw [h]
    simp only [hm, if_true]
    cases ho : env .objectStyle with
    | resp e r => cases e <;> rfl
    | exn m => rfl
  · intro h hm
    unfold eth_get_logs_by_block_hash
    rw [h]
    simp [hm]
  · intro m h
    unfold eth_get_logs_by_block_hash
    rw [h]
    cases ho : env .objectStyle with
    | resp e r => cases e <;> rfl
    | exn m2 => rfl
  · unfold eth_get_logs_by_block_hash
    cases ha : env .arrayStyle with
    | resp e r =>
      cases e with
      | none => simp
      | some e2 =>
        by_cases hm : isMismatchMsg e2
        · simp only [hm, if_true]
          cases ho : env .objectStyle with
          | resp e3 r3 => cases e3 <;> simp
          | exn m3 => simp
        · simp [hm]
    | exn m =>
      cases ho : env .objectStyle with
      | resp e3 r3 => cases e3 <;> simp
      | exn m3 => simp

/-- Witness for the amended C9: a concrete protocol-mismatch rejection of
the array-style attempt followed by an object-style success. -/
theorem logs_retry_policy_witness :
    isMismatchMsg "json: cannot unmarshal array into field" = true ∧
    (eth_get_logs_by_block_hash logsEnvMismatchThenOk).2 =
      [ParamShape.arrayStyle, ParamShape.objectStyle] ∧
    (eth_get_logs_by_block_hash logsEnvMismatchThenOk).2.length ≤ 2 := by
  have h := logs_retry_policy logsEnvMismatchThenOk
    "json: cannot unmarshal array into field" none
  exact ⟨by decide, h.1 rfl (by decide), h.2.2.2⟩

end ChainTools
